import Mathlib

/-!
Verification of the AI decision firewall core (`src/adf`): a shallow
embedding of the decision pipeline — claim extraction, confidence and
evidence analysis, rule scanning, risk scoring, policy overlay, verdict
selection — together with the learning-memory state machine, and theorems
about the spec-level properties of that pipeline.

Embedding conventions:
* Python floats are modelled as exact rationals (`ℚ`); decimal literals in
  the source become the corresponding rationals, written `mkRat a b`
  (e.g. `mkRat 6 10` for `0.6`) so that ground terms evaluate.
* Python regexes are modelled by a small executable regex interpreter
  (`Rx`) covering exactly the constructs the source patterns use:
  literals, character classes, alternation, concatenation, star over a
  character class, and the word boundary `\b`.  Case-insensitive search
  (`re.IGNORECASE`) is modelled by lower-casing the subject text and
  writing the pattern literals in lower case.
* `str.lower`, `str.strip`, `str.split()` are modelled on ASCII text by
  `Char.toLower`, whitespace trimming, and whitespace-run word counting.
* Python dict access `statistics.get("total_allows", 0)` is modelled by an
  `Option Nat` field recording whether the key is present.
* f-string numeric formatting (`:.2f`, `:.3f`) is rendered via `toString`
  of the exact rational; only the interpolated rendering differs, not the
  surrounding text or any decision logic.
-/

/-- Verdict enum from `src/adf/models.py`. -/
inductive Verdict where
  | ALLOW
  | BLOCK
  | REQUIRE_EVIDENCE
  | REQUIRE_HUMAN_REVIEW
deriving DecidableEq, Repr

/-- Claim model from `src/adf/models.py`: one atomic claim extracted from the output. -/
structure Claim where
  text : String
  is_factual : Bool
  confidence : ℚ
deriving DecidableEq, Repr

/-- CheckResult model from `src/adf/models.py`. -/
structure CheckResult where
  check_name : String
  passed : Bool
  reason : String
deriving DecidableEq, Repr

/-- Request model from `src/adf/models.py` (`FirewallRequest`). -/
structure FirewallRequest where
  ai_output : String
  confidence : ℚ
  intended_action : String
  sources : List String
deriving DecidableEq, Repr

/-- A request that passed the pydantic validation in `models.py`: bounded
confidence and a lower-cased action from the `IntendedAction` enum. -/
def ValidRequest (r : FirewallRequest) : Prop :=
  0 ≤ r.confidence ∧ r.confidence ≤ 1 ∧
  r.intended_action ∈ (["answer", "email", "trade", "execute_code"] : List String)

instance (r : FirewallRequest) : Decidable (ValidRequest r) := by
  unfold ValidRequest; infer_instance

/-! ## Configuration constants (`src/adf/config.py`) -/

def CONFIDENCE_THRESHOLD_EVIDENCE_REQUIRED : ℚ := mkRat 6 10

def CONFIDENCE_THRESHOLD_HIGH : ℚ := mkRat 8 10

def CONFIDENCE_THRESHOLD_LOW : ℚ := mkRat 3 10

/-- `ACTION_IMPACT` dict from `config.py`. -/
def ACTION_IMPACT (a : String) : Option ℚ :=
  if a = "answer" then some (mkRat 2 10)
  else if a = "email" then some (mkRat 5 10)
  else if a = "trade" then some (mkRat 9 10)
  else if a = "execute_code" then some (mkRat 95 100)
  else none

def RISK_THRESHOLD_LOW : ℚ := mkRat 3 10

def RISK_THRESHOLD_MEDIUM : ℚ := mkRat 6 10

def RISK_THRESHOLD_HIGH : ℚ := mkRat 8 10

def DEFAULT_ACTION_IMPACT : ℚ := mkRat 5 10

def LEARNING_ENABLED : Bool := true

/-! ## A small regex interpreter

The source classifies text with `re.search` over a fixed list of patterns
(`claim_parser.py`, `rules.py`).  `Rx` covers exactly the constructs those
patterns use.  `matches1 r prev s` returns every way `r` can match a prefix
of `s`, each result carrying the last consumed character (needed for the
word-boundary test) and the remaining suffix. -/

/-- Python `str.lower()` character by character (`Char.toLower`; the source
patterns and action tokens are ASCII). -/
def pyLower (s : String) : String := String.mk (s.data.map Char.toLower)

/-- Python `\w`: letters, digits, underscore (ASCII fragment). -/
def isWordChar (c : Char) : Bool := c.isAlphanum || c = '_'

inductive Rx where
  | eps : Rx
  | cls : (Char → Bool) → Rx
  | seq : Rx → Rx → Rx
  | alt : Rx → Rx → Rx
  | starCls : (Char → Bool) → Rx
  | wordB : Rx

/-- All splits of `s` into a (possibly empty) prefix of characters
satisfying `p` and a remainder — the match states of `p*`. -/
def starSplits (p : Char → Bool) : Option Char → List Char → List (Option Char × List Char)
  | prev, [] => [(prev, [])]
  | prev, c :: rest =>
    (prev, c :: rest) :: (if p c then starSplits p (some c) rest else [])

/-- Word-boundary test for `\b`: exactly one side of the position is a word
character (string edges count as non-word). -/
def atWordBoundary (prev : Option Char) (s : List Char) : Bool :=
  (match prev with | none => false | some c => isWordChar c)
    != (match s with | [] => false | c :: _ => isWordChar c)

/-- All ways `r` matches a prefix of `s`; `prev` is the character just
before the current position (`none` at the start of the subject). -/
def matches1 : Rx → Option Char → List Char → List (Option Char × List Char)
  | .eps, prev, s => [(prev, s)]
  | .cls p, _, [] => []
  | .cls p, _, c :: rest => if p c then [(some c, rest)] else []
  | .seq a b, prev, s =>
    (matches1 a prev s).flatMap (fun pr => matches1 b pr.1 pr.2)
  | .alt a b, prev, s => matches1 a prev s ++ matches1 b prev s
  | .starCls p, prev, s => starSplits p prev s
  | .wordB, prev, s => if atWordBoundary prev s then [(prev, s)] else []

/-- `re.search` on a character list: does `r` match starting at any position? -/
def searchFrom (r : Rx) (prev : Option Char) : List Char → Bool
  | [] => !(matches1 r prev []).isEmpty
  | c :: rest =>
    !(matches1 r prev (c :: rest)).isEmpty || searchFrom r (some c) rest

/-- `re.search(r, s)` as a Boolean. -/
def Rx.search (r : Rx) (s : String) : Bool := searchFrom r none s.data

/-- Case-insensitive search (`re.IGNORECASE`): the subject is lower-cased
and the pattern is written with lower-case literals. -/
def Rx.searchCI (r : Rx) (s : String) : Bool :=
  searchFrom r none (pyLower s).data

/-! Pattern-building helpers. -/

def Rx.lit (s : String) : Rx :=
  s.data.foldr (fun c r => Rx.seq (Rx.cls (fun x => x = c)) r) Rx.eps

def Rx.oneOf (ws : List String) : Rx :=
  ws.foldr (fun w r => Rx.alt (Rx.lit w) r) (Rx.cls (fun _ => false))

/-- `\s+` -/
def Rx.wsPlus : Rx := Rx.seq (Rx.cls Char.isWhitespace) (Rx.starCls Char.isWhitespace)

/-- `\s*` -/
def Rx.wsStar : Rx := Rx.starCls Char.isWhitespace

/-- `\d{n}` -/
def Rx.digits : Nat → Rx
  | 0 => Rx.eps
  | n + 1 => Rx.seq (Rx.cls Char.isDigit) (Rx.digits n)

/-- `\d+` -/
def Rx.digitPlus : Rx := Rx.seq (Rx.cls Char.isDigit) (Rx.starCls Char.isDigit)

/-- `\w+` -/
def Rx.wordPlus : Rx := Rx.seq (Rx.cls isWordChar) (Rx.starCls isWordChar)

/-! ## ClaimParser (`src/adf/firewall/claim_parser.py`) -/

/-- `FACTUAL_PATTERNS[0]`:
`\b(?:was|were|is|are|has|have|had)\s+(?:founded|created|established|invented|discovered|made|built)` -/
def factualPattern1 : Rx :=
  .seq .wordB (.seq (.oneOf ["was", "were", "is", "are", "has", "have", "had"])
    (.seq .wsPlus (.oneOf ["founded", "created", "established", "invented", "discovered", "made", "built"])))

/-- `FACTUAL_PATTERNS[1]`: `\b(?:in|on|at|during)\s+\d{4}` -/
def factualPattern2 : Rx :=
  .seq .wordB (.seq (.oneOf ["in", "on", "at", "during"]) (.seq .wsPlus (.digits 4)))

/-- `FACTUAL_PATTERNS[2]`: `\b(?:founded|created|established|invented|discovered)\s+(?:in|on|at)` -/
def factualPattern3 : Rx :=
  .seq .wordB (.seq (.oneOf ["founded", "created", "established", "invented", "discovered"])
    (.seq .wsPlus (.oneOf ["in", "on", "at"])))

/-- `FACTUAL_PATTERNS[3]`: `\b(?:makes|produces|manufactures|sells|owns)` -/
def factualPattern4 : Rx :=
  .seq .wordB (.oneOf ["makes", "produces", "manufactures", "sells", "owns"])

/-- `FACTUAL_PATTERNS[4]`: `\b(?:according to|based on|per|as stated in)` -/
def factualPattern5 : Rx :=
  .seq .wordB (.oneOf ["according to", "based on", "per", "as stated in"])

/-- `FACTUAL_PATTERNS[5]`: `\b(?:the|a|an)\s+\w+\s+(?:is|was|are|were)` -/
def factualPattern6 : Rx :=
  .seq .wordB (.seq (.oneOf ["the", "a", "an"])
    (.seq .wsPlus (.seq .wordPlus (.seq .wsPlus (.oneOf ["is", "was", "are", "were"])))))

/-- The compiled alternation of all six factual patterns. -/
def factualRegex : Rx :=
  .alt factualPattern1 (.alt factualPattern2 (.alt factualPattern3
    (.alt factualPattern4 (.alt factualPattern5 factualPattern6))))

/-- Characters of `SENTENCE_DELIMITERS` class `[.!?]`. -/
def isSentencePunct (c : Char) : Bool := c = '.' || c = '!' || c = '?'

/-- Python `str.strip()` on a character list. -/
def pyStrip (l : List Char) : List Char :=
  ((l.dropWhile Char.isWhitespace).reverse.dropWhile Char.isWhitespace).reverse

/-- Number of words of `len(s.split())`: maximal non-whitespace runs. -/
def pyWordCount (s : List Char) : Nat :=
  (s.foldl
    (fun (st : Bool × Nat) c =>
      if c.isWhitespace then (false, st.2)
      else if st.1 then (true, st.2) else (true, st.2 + 1))
    (false, 0)).2

/-- `re.split(r'[.!?]+(?:\s+|$)', text)` as a character scan: a delimiter is
a maximal run of sentence punctuation followed by whitespace (consumed
greedily) or by the end of the text; a punctuation run followed by anything
else is ordinary sentence text.  `punct` is the pending punctuation run and
`acc` the current piece, both reversed; `skipWs` consumes the whitespace of
a just-matched delimiter. -/
def splitSentencesGo (punct acc : List Char) (skipWs : Bool) :
    List Char → List (List Char)
  | [] => if punct = [] then [acc.reverse] else [acc.reverse, []]
  | c :: rest =>
    if punct ≠ [] then
      if isSentencePunct c then splitSentencesGo (c :: punct) acc false rest
      else if c.isWhitespace then acc.reverse :: splitSentencesGo [] [] true rest
      else splitSentencesGo [] (c :: (punct ++ acc)) false rest
    else if skipWs ∧ c.isWhitespace then splitSentencesGo [] acc true rest
    else if isSentencePunct c then splitSentencesGo [c] acc false rest
    else splitSentencesGo [] (c :: acc) false rest

def splitSentences (text : String) : List (List Char) :=
  splitSentencesGo [] [] false text.data

/-- `ClaimParser.parse` from `claim_parser.py`: split the output into
sentences, classify each as factual (regex match, else digit heuristic),
drop sentences shorter than three words, and attach the overall confidence. -/
def ClaimParser.parse (text : String) (overall_confidence : ℚ) : List Claim :=
  if pyStrip text.data = [] then []
  else
    let sentences := ((splitSentences text).map pyStrip).filter (fun s => !s.isEmpty)
    sentences.filterMap (fun sentence =>
      let is_factual0 := searchFrom factualRegex none (sentence.map Char.toLower)
      let is_factual := if is_factual0 then true else sentence.any Char.isDigit
      if pyWordCount sentence < 3 then none
      else some { text := String.mk sentence,
                  is_factual := is_factual,
                  confidence := overall_confidence })

/-! ## ConfidenceChecker (`src/adf/firewall/confidence.py`) -/

def ConfidenceChecker.requires_evidence (confidence : ℚ) : Bool :=
  confidence > CONFIDENCE_THRESHOLD_EVIDENCE_REQUIRED

def ConfidenceChecker.is_high_confidence (confidence : ℚ) : Bool :=
  confidence ≥ CONFIDENCE_THRESHOLD_HIGH

def ConfidenceChecker.is_low_confidence (confidence : ℚ) : Bool :=
  confidence < CONFIDENCE_THRESHOLD_LOW

def ConfidenceChecker.calculate_uncertainty (confidence : ℚ) : ℚ :=
  1 - confidence

/-- `ConfidenceChecker.validate_confidence_alignment`: fails exactly when a
high-confidence factual claim exists and the overall confidence also
exceeds the evidence threshold. -/
def ConfidenceChecker.validate_confidence_alignment
    (overall_confidence : ℚ) (claims : List Claim) : Bool × String :=
  if claims = [] then (true, "No claims to validate")
  else
    let high_confidence_factual := claims.filter
      (fun c => c.is_factual && decide (c.confidence > CONFIDENCE_THRESHOLD_EVIDENCE_REQUIRED))
    if high_confidence_factual ≠ [] ∧ overall_confidence > CONFIDENCE_THRESHOLD_EVIDENCE_REQUIRED then
      (false, "High confidence factual claims detected")
    else if overall_confidence > CONFIDENCE_THRESHOLD_HIGH ∧
        (claims.countP (fun c => c.is_factual)) = 0 then
      (true, "High confidence on non-factual content is acceptable")
    else
      (true, "Confidence alignment validated")

/-! ## EvidenceChecker (`src/adf/firewall/evidence.py`) -/

/-- `EvidenceChecker.check_evidence`: returns `(has_evidence, reason, failed_claims)`. -/
def EvidenceChecker.check_evidence
    (claims : List Claim) (sources : List String) : Bool × String × List String :=
  let high_confidence_factual := claims.filter
    (fun c => c.is_factual && decide (c.confidence > CONFIDENCE_THRESHOLD_EVIDENCE_REQUIRED))
  if high_confidence_factual = [] then
    (true, "No high-confidence factual claims requiring evidence", [])
  else if sources.length = 0 then
    (false, "High confidence factual claims require evidence but no sources provided",
      high_confidence_factual.map Claim.text)
  else
    let valid_sources := sources.filter (fun s => !(pyStrip s.data).isEmpty)
    if valid_sources = [] then
      (false, "Sources provided but all are empty", high_confidence_factual.map Claim.text)
    else
      let min_sources := max 1 (high_confidence_factual.length / 3)
      if valid_sources.length < min_sources then
        (false, "Insufficient sources: " ++ toString valid_sources.length ++ " provided, "
          ++ toString min_sources ++ " required for "
          ++ toString high_confidence_factual.length ++ " factual claims",
          high_confidence_factual.map Claim.text)
      else
        (true, "Evidence check passed: " ++ toString valid_sources.length ++ " sources for "
          ++ toString high_confidence_factual.length ++ " factual claims", [])

def EvidenceChecker.validate_source_quality (sources : List String) : Bool × String :=
  if sources = [] then (true, "No sources to validate")
  else
    let empty_count := sources.countP (fun s => (pyStrip s.data).isEmpty)
    if empty_count > 0 then
      (false, toString empty_count ++ " empty source(s) detected")
    else
      let too_short := sources.filter (fun s => (pyStrip s.data).length < 5)
      if too_short ≠ [] then
        (false, toString too_short.length ++ " source(s) are too short to be meaningful")
      else
        (true, "Source quality validated")

/-! ## RulesEngine (`src/adf/firewall/rules.py`) -/

def RulesEngine.HIGH_IMPACT_ACTIONS : List String := ["trade", "execute_code"]

def RulesEngine.HIGH_IMPACT_CONFIDENCE_THRESHOLD : ℚ := mkRat 8 10

/-- `unsafe_patterns[0]`: `\b(?:delete|drop|truncate|format|rm\s+-rf)\s+` -/
def unsafePattern1 : Rx :=
  .seq .wordB (.seq
    (.alt (.oneOf ["delete", "drop", "truncate", "format"])
      (.seq (.lit "rm") (.seq .wsPlus (.lit "-rf"))))
    .wsPlus)

/-- `unsafe_patterns[1]`: `\b(?:sudo|admin|root)\s+` -/
def unsafePattern2 : Rx := .seq .wordB (.seq (.oneOf ["sudo", "admin", "root"]) .wsPlus)

/-- `unsafe_patterns[2]`: password/secret/key/token followed by `=` and a quote. -/
def unsafePattern3 : Rx :=
  .seq .wordB (.seq (.oneOf ["password", "secret", "key", "token"])
    (.seq .wsStar (.seq (.lit "=") (.seq .wsStar
      (.cls (fun c => c = '"' || c = Char.ofNat 39))))))

/-- `unsafe_patterns[3]`: `<script[^>]*>` -/
def unsafePattern4 : Rx :=
  .seq (.lit "<script") (.seq (.starCls (fun c => c ≠ '>')) (.lit ">"))

/-- `unsafe_patterns[4]`: `eval\s*\(` -/
def unsafePattern5 : Rx := .seq (.lit "eval") (.seq .wsStar (.lit "("))

/-- `unsafe_patterns[5]`: `exec\s*\(` -/
def unsafePattern6 : Rx := .seq (.lit "exec") (.seq .wsStar (.lit "("))

def RulesEngine.unsafe_patterns : List (Rx × String) :=
  [(unsafePattern1, "destructive verbs"),
   (unsafePattern2, "privileged users"),
   (unsafePattern3, "credential assignment"),
   (unsafePattern4, "script tag"),
   (unsafePattern5, "eval call"),
   (unsafePattern6, "exec call")]

/-- `harmful_patterns[0]`: `\b(?:kill|terminate|destroy|remove)\s+` -/
def harmfulPattern1 : Rx :=
  .seq .wordB (.seq (.oneOf ["kill", "terminate", "destroy", "remove"]) .wsPlus)

/-- `harmful_patterns[1]`: `\b(?:transfer|send|move)\s+\$\d+` -/
def harmfulPattern2 : Rx :=
  .seq .wordB (.seq (.oneOf ["transfer", "send", "move"])
    (.seq .wsPlus (.seq (.lit "$") .digitPlus)))

/-- `harmful_patterns[2]`: `\b(?:execute|run|call)\s+.*\b(?:dangerous|unsafe|risky)`;
`.` matches anything but a newline. -/
def harmfulPattern3 : Rx :=
  .seq .wordB (.seq (.oneOf ["execute", "run", "call"])
    (.seq .wsPlus (.seq (.starCls (fun c => c ≠ Char.ofNat 10))
      (.seq .wordB (.oneOf ["dangerous", "unsafe", "risky"])))))

def RulesEngine.harmful_patterns : List (Rx × String) :=
  [(harmfulPattern1, "destructive action"),
   (harmfulPattern2, "money movement"),
   (harmfulPattern3, "dangerous execution")]

/-- `\$\s*\d{6,}` (large trade amounts; compiled without IGNORECASE). -/
def largeAmountPattern : Rx := .seq (.lit "$") (.seq .wsStar (.digits 6))

/-- `\b(?:system|os|subprocess|shell)\s*\.` -/
def systemOpsPattern : Rx :=
  .seq .wordB (.seq (.oneOf ["system", "os", "subprocess", "shell"])
    (.seq .wsStar (.lit ".")))

/-- `RulesEngine._check_unsafe_patterns`: first matching pattern fails the check. -/
def RulesEngine.check_unsafe_patterns (text : String) : Bool × String :=
  match RulesEngine.unsafe_patterns.find? (fun pr => pr.1.searchCI text) with
  | some pr => (false, "Unsafe pattern detected: " ++ pr.2)
  | none => (true, "No unsafe patterns detected")

/-- `RulesEngine._check_harmful_actions`: harmful patterns, then the
action-specific large-amount and system-operation checks. -/
def RulesEngine.check_harmful_actions (text : String) (action_type : String) : Bool × String :=
  match RulesEngine.harmful_patterns.find? (fun pr => pr.1.searchCI text) with
  | some pr => (false, "Potentially harmful action detected: " ++ pr.2)
  | none =>
    if action_type = "trade" ∧ largeAmountPattern.search text then
      (false, "Large trade amount detected without proper safeguards")
    else if action_type = "execute_code" ∧ systemOpsPattern.searchCI text then
      (false, "System-level operations detected in code execution")
    else
      (true, "No harmful actions detected")

/-- `RulesEngine._check_contradictions`: duplicate lower-cased factual claim
texts fail the check. -/
def RulesEngine.check_contradictions (claims : List Claim) : Bool × String :=
  let factual_claims := (claims.filter (fun c => c.is_factual)).map (fun c => pyLower c.text)
  if factual_claims.length > 1 ∧ factual_claims.length ≠ factual_claims.dedup.length then
    (false, "Duplicate claims detected")
  else
    (true, "No contradictions detected")

/-- `RulesEngine.check_rules`: returns `(passed, reason, failed_rules)`. -/
def RulesEngine.check_rules
    (claims : List Claim) (ai_output : String) (intended_action : String) :
    Bool × String × List String :=
  let failed_rules : List String :=
    (if (RulesEngine.check_unsafe_patterns ai_output).1 = false then ["unsafe_patterns"] else [])
    ++ (if intended_action ∈ (["trade", "execute_code"] : List String) ∧
          (RulesEngine.check_harmful_actions ai_output intended_action).1 = false
        then ["harmful_actions"] else [])
    ++ (if (RulesEngine.check_contradictions claims).1 = false then ["contradictions"] else [])
  if failed_rules ≠ [] then
    (false, "Rules violated: " ++ String.intercalate ", " failed_rules, failed_rules)
  else
    (true, "All rules passed", [])

/-- `RulesEngine.requires_human_review_for_high_impact`: high-impact actions
need review unless confidence is at least 0.8 and evidence is present. -/
def RulesEngine.requires_human_review_for_high_impact
    (intended_action : String) (confidence : ℚ) (has_evidence : Bool) : Bool × String :=
  if pyLower intended_action ∉ RulesEngine.HIGH_IMPACT_ACTIONS then
    (false, "Not a high-impact action")
  else if confidence < RulesEngine.HIGH_IMPACT_CONFIDENCE_THRESHOLD ∨ has_evidence = false then
    (true, "High-impact action (" ++ intended_action ++ ") requires human review. "
      ++ "Confidence (" ++ toString confidence ++ ") is below threshold ("
      ++ toString RulesEngine.HIGH_IMPACT_CONFIDENCE_THRESHOLD ++ ") or evidence is missing.")
  else
    (false, "High-impact action meets confidence and evidence requirements")

/-! ## RiskScorer (`src/adf/firewall/risk.py`) -/

/-- `RiskScorer.calculate_risk_score`:
uncertainty x action impact x evidence factor x claim factor, clamped to [0, 1]. -/
def RiskScorer.calculate_risk_score
    (confidence : ℚ) (intended_action : String) (claims : List Claim)
    (has_evidence : Bool) : ℚ :=
  let uncertainty := ConfidenceChecker.calculate_uncertainty confidence
  let action_impact := (ACTION_IMPACT (pyLower intended_action)).getD DEFAULT_ACTION_IMPACT
  let evidence_factor : ℚ :=
    if has_evidence = false then
      let factual_claims := claims.filter (fun c => c.is_factual)
      if factual_claims ≠ [] then
        let high_conf_factual := factual_claims.filter
          (fun c => decide (c.confidence > mkRat 6 10))
        if high_conf_factual ≠ [] then mkRat 3 2 else 1
      else 1
    else 1
  let base_risk := uncertainty * action_impact * evidence_factor
  let claim_factor : ℚ := min (1 + (claims.length : ℚ) * mkRat 5 100) (mkRat 13 10)
  let risk_score := base_risk * claim_factor
  min 1 (max 0 risk_score)

def RiskScorer.get_risk_level (risk_score : ℚ) : String :=
  if risk_score < mkRat 3 10 then "low"
  else if risk_score < mkRat 6 10 then "medium"
  else if risk_score < mkRat 8 10 then "high"
  else "critical"

/-! ## PolicyManager (`src/adf/compliance/policy.py`) -/

inductive PolicyMode where
  | GENERAL_AI
  | FINANCIAL_SERVICES
  | HEALTHCARE
  | LEGAL
deriving DecidableEq, Repr

def PolicyMode.value : PolicyMode → String
  | .GENERAL_AI => "GENERAL_AI"
  | .FINANCIAL_SERVICES => "FINANCIAL_SERVICES"
  | .HEALTHCARE => "HEALTHCARE"
  | .LEGAL => "LEGAL"

/-- `PolicyManager._setup_policies`: the mandatory-review action set per mode. -/
def PolicyManager.mandatory_review_actions : PolicyMode → List String
  | .GENERAL_AI => ["trade", "execute_code"]
  | .FINANCIAL_SERVICES => ["trade", "execute_code"]
  | .HEALTHCARE => ["medical", "execute_code", "trade"]
  | .LEGAL => ["legal", "execute_code", "trade"]

def PolicyManager.confidence_threshold_evidence_required : PolicyMode → ℚ
  | .GENERAL_AI => mkRat 6 10
  | .FINANCIAL_SERVICES => mkRat 7 10
  | .HEALTHCARE => mkRat 8 10
  | .LEGAL => mkRat 8 10

def PolicyManager.risk_threshold_medium : PolicyMode → ℚ
  | .GENERAL_AI => mkRat 6 10
  | .FINANCIAL_SERVICES => mkRat 5 10
  | .HEALTHCARE => mkRat 4 10
  | .LEGAL => mkRat 4 10

/-- `PolicyManager.requires_mandatory_review`: case-insensitive membership in
the mandatory-review set of the current mode. -/
def PolicyManager.requires_mandatory_review
    (mode : PolicyMode) (intended_action : String) : Bool × String :=
  if pyLower intended_action ∈ PolicyManager.mandatory_review_actions mode then
    (true, "Governance rule: " ++ intended_action
      ++ " actions require mandatory human review in " ++ mode.value
      ++ " policy mode. This requirement cannot be overridden by high confidence or evidence presence.")
  else
    (false, "")

/-! ## VerdictEngine (`src/adf/firewall/verdict.py`) -/

/-- `VerdictEngine.determine_verdict`: the priority ladder.  Returns
`(verdict, reason, explanation, applied_policies, escalation_reason)`.
Governance is checked first and overrides everything; then safety rules,
critical risk for high-impact actions, the evidence gate, risk-based
review, confidence alignment (demoted to a warning when evidence is
present), the high-impact policy, and finally ALLOW. -/
def VerdictEngine.determine_verdict
    (risk_score : ℚ) (evidence_passed : Bool) (rules_passed : Bool)
    (confidence_aligned : Bool) (failed_checks : List String)
    (intended_action : String) (confidence : ℚ) (claims : List Claim)
    (high_impact_review_required : Bool) (high_impact_review_reason : String)
    (governance_review_required : Bool) (governance_reason : String) :
    Verdict × String × String × List String × Option String :=
  if governance_review_required then
    (Verdict.REQUIRE_HUMAN_REVIEW,
     "Governance rule: mandatory human review required",
     "This " ++ intended_action ++ " action requires mandatory human review due to governance policy. "
       ++ "This requirement cannot be overridden by high confidence, evidence, or low risk scores. "
       ++ governance_reason,
     ["mandatory_governance_review"],
     some governance_reason)
  else if rules_passed = false then
    (Verdict.BLOCK,
     "Safety rules violated - output contains unsafe patterns or harmful actions",
     "Blocked because the output contains unsafe patterns or harmful actions "
       ++ "that violate safety rules. The " ++ intended_action ++ " action cannot proceed.",
     ["safety_rules"],
     none)
  else if risk_score ≥ RISK_THRESHOLD_HIGH ∧
      intended_action ∈ (["trade", "execute_code"] : List String) then
    (Verdict.BLOCK,
     "Critical risk score (" ++ toString risk_score ++ ") for high-impact action ("
       ++ intended_action ++ ")",
     "Blocked because the risk score (" ++ toString risk_score
       ++ ") is critical for a high-impact action (" ++ intended_action
       ++ "). The system cannot proceed without human oversight.",
     ["high_risk_block"],
     none)
  else if evidence_passed = false then
    if risk_score ≥ RISK_THRESHOLD_MEDIUM then
      (Verdict.BLOCK,
       "High confidence factual claims without evidence and medium+ risk",
       "Blocked because the model expressed " ++ toString confidence ++ " confidence in "
         ++ toString (claims.countP (fun c => c.is_factual)) ++ " factual claim(s) without "
         ++ "providing evidence, violating grounding rules. Additionally, the risk score ("
         ++ toString risk_score ++ ") exceeds the medium threshold.",
       ["evidence_requirement"],
       none)
    else
      (Verdict.REQUIRE_EVIDENCE,
       "High confidence factual claims require evidence",
       "Requires evidence because the model expressed " ++ toString confidence ++ " confidence in "
         ++ toString (claims.countP (fun c => c.is_factual)) ++ " factual claim(s) without "
         ++ "providing supporting sources. Evidence must be provided before proceeding.",
       ["evidence_requirement"],
       none)
  else if risk_score ≥ RISK_THRESHOLD_MEDIUM then
    if intended_action ∈ (["trade", "execute_code"] : List String) then
      (Verdict.REQUIRE_HUMAN_REVIEW,
       "Medium-high risk (" ++ toString risk_score ++ ") for high-impact action",
       "Requires human review because the risk score (" ++ toString risk_score
         ++ ") is medium-high for a high-impact action (" ++ intended_action
         ++ "). A human must approve before proceeding.",
       ["risk_based_review"],
       some ("Risk score (" ++ toString risk_score ++ ") is medium-high for high-impact action ("
         ++ intended_action ++ ")"))
    else
      (Verdict.REQUIRE_HUMAN_REVIEW,
       "Medium-high risk score (" ++ toString risk_score ++ ") requires review",
       "Requires human review because the risk score (" ++ toString risk_score
         ++ ") exceeds the medium threshold. A human must review the output before it can proceed.",
       ["risk_based_review"],
       some ("Risk score (" ++ toString risk_score ++ ") exceeds medium threshold"))
  else if confidence_aligned = false ∧ evidence_passed = false then
    if risk_score ≥ RISK_THRESHOLD_MEDIUM then
      (Verdict.REQUIRE_HUMAN_REVIEW,
       "Confidence alignment issues with medium+ risk and no evidence",
       "Requires human review because confidence alignment issues were detected (confidence "
         ++ toString confidence ++ " does not match claim characteristics) and the risk score ("
         ++ toString risk_score ++ ") is medium or higher. Evidence is also missing.",
       ["confidence_alignment_check"],
       some "Confidence alignment issues detected with medium+ risk and no evidence")
    else
      (Verdict.REQUIRE_EVIDENCE,
       "Confidence alignment issues detected",
       "Requires evidence because confidence alignment issues were detected. The model "
         ++ "confidence (" ++ toString confidence ++ ") does not align with the "
         ++ "characteristics of the claims.",
       ["confidence_alignment_check"],
       none)
  else if high_impact_review_required then
    (Verdict.REQUIRE_HUMAN_REVIEW,
     "High-impact action requires human review",
     "High-impact action requires human review due to insufficient confidence or evidence. "
       ++ high_impact_review_reason,
     ["high_impact_policy"],
     some high_impact_review_reason)
  else if risk_score < RISK_THRESHOLD_LOW then
    (Verdict.ALLOW,
     "All checks passed, low risk",
     if confidence_aligned = false ∧ evidence_passed then
       "Allowed despite confidence misalignment because supporting evidence was provided. "
         ++ "The risk score (" ++ toString risk_score ++ ") is low and all critical checks passed."
     else
       "Allowed because all checks passed and the risk score (" ++ toString risk_score
         ++ ") is low. The output meets all safety and grounding requirements.",
     ["low_risk_allow"],
     none)
  else
    (Verdict.ALLOW,
     "All checks passed, acceptable risk (" ++ toString risk_score ++ ")",
     if confidence_aligned = false ∧ evidence_passed then
       "Allowed despite confidence misalignment because supporting evidence was provided. "
         ++ "The risk score (" ++ toString risk_score ++ ") is acceptable for the "
         ++ intended_action ++ " action."
     else
       "Allowed because all checks passed. The risk score (" ++ toString risk_score
         ++ ") is acceptable for the " ++ intended_action ++ " action.",
     ["acceptable_risk_allow"],
     none)

/-- One entry of the `checks` sub-tree built by `build_details`. -/
structure CheckBreakdown where
  passed : Bool
  result : String
deriving DecidableEq, Repr

/-- The `details` tree built by `VerdictEngine.build_details`. -/
structure Details where
  claims : List Claim
  claim_count : Nat
  factual_claim_count : Nat
  risk_score : ℚ
  risk_level : String
  evidence_check : CheckBreakdown
  rules_check : CheckBreakdown
  confidence_alignment_check : CheckBreakdown
  check_results : List CheckResult
  sources_count : Nat
  sources_provided : Bool
deriving DecidableEq, Repr

/-- `VerdictEngine._get_risk_level`. -/
def VerdictEngine.get_risk_level (risk_score : ℚ) : String :=
  if risk_score < RISK_THRESHOLD_LOW then "low"
  else if risk_score < RISK_THRESHOLD_MEDIUM then "medium"
  else if risk_score < RISK_THRESHOLD_HIGH then "high"
  else "critical"

/-- `VerdictEngine.build_details`. -/
def VerdictEngine.build_details
    (claims : List Claim) (risk_score : ℚ) (evidence_passed : Bool)
    (rules_passed : Bool) (confidence_aligned : Bool)
    (check_results : List CheckResult) (sources : List String) : Details :=
  { claims := claims,
    claim_count := claims.length,
    factual_claim_count := claims.countP (fun c => c.is_factual),
    risk_score := risk_score,
    risk_level := VerdictEngine.get_risk_level risk_score,
    evidence_check := ⟨evidence_passed, if evidence_passed then "PASS" else "FAIL"⟩,
    rules_check := ⟨rules_passed, if rules_passed then "PASS" else "FAIL"⟩,
    confidence_alignment_check := ⟨confidence_aligned, if confidence_aligned then "PASS" else "FAIL"⟩,
    check_results := check_results,
    sources_count := sources.length,
    sources_provided := sources.length > 0 }

/-- Response model from `src/adf/models.py` (`FirewallResponse`). -/
structure FirewallResponse where
  verdict : Verdict
  reason : String
  risk_score : ℚ
  details : Details
  failed_checks : List String
  explanation : String
  confidence_alignment : Bool
  applied_policies : List String
  escalation_reason : Option String
deriving DecidableEq, Repr

/-! ## LearningMemory (`src/adf/learning/memory.py`) -/

/-- The record appended by `record_blocked_decision` (timestamp omitted;
the output preview is truncated to 200 characters as in the source). -/
structure BlockedRecord where
  ai_output : String
  confidence : ℚ
  intended_action : String
  verdict : Verdict
  risk_score : ℚ
  failed_checks : List String
  explanation : String
deriving DecidableEq, Repr

/-- The record appended by `record_human_override` (timestamp omitted). -/
structure OverrideRecord where
  original_verdict : Verdict
  override_verdict : Verdict
  reason : String
  ai_output_preview : Option String
deriving DecidableEq, Repr

/-- The `statistics` sub-dictionary of the persisted memory document.
`total_allows` is `Option Nat` because the source never writes that key:
`get_false_negative_rate` reads it with `statistics.get("total_allows", 0)`.
`none` models the key being absent. -/
structure MemoryStatistics where
  total_blocks : Nat
  total_overrides : Nat
  false_positive_count : Nat
  false_negative_count : Nat
  total_allows : Option Nat
deriving DecidableEq, Repr

/-- The persisted memory document (`LearningMemory.memory`). -/
structure MemoryState where
  blocked_decisions : List BlockedRecord
  human_overrides : List OverrideRecord
  false_positives : List OverrideRecord
  false_negatives : List OverrideRecord
  statistics : MemoryStatistics
deriving DecidableEq, Repr

/-- The fresh document `_load_memory` builds when no memory file exists:
empty lists, zero counters, and no `total_allows` key. -/
def LearningMemory.initial : MemoryState :=
  { blocked_decisions := [], human_overrides := [], false_positives := [],
    false_negatives := [],
    statistics := { total_blocks := 0, total_overrides := 0,
                    false_positive_count := 0, false_negative_count := 0,
                    total_allows := none } }

/-- The record built by `record_blocked_decision` from a request/response pair. -/
def LearningMemory.mkBlockedRecord
    (request : FirewallRequest) (response : FirewallResponse) : BlockedRecord :=
  { ai_output := String.mk (request.ai_output.data.take 200),
    confidence := request.confidence,
    intended_action := request.intended_action,
    verdict := response.verdict,
    risk_score := response.risk_score,
    failed_checks := response.failed_checks,
    explanation := response.explanation }

/-- `LearningMemory.record_blocked_decision`. -/
def LearningMemory.record_blocked_decision
    (m : MemoryState) (request : FirewallRequest) (response : FirewallResponse) :
    MemoryState :=
  if LEARNING_ENABLED = false then m
  else
    { m with
      blocked_decisions := m.blocked_decisions ++ [LearningMemory.mkBlockedRecord request response],
      statistics := { m.statistics with total_blocks := m.statistics.total_blocks + 1 } }

/-- `LearningMemory.record_human_override`: classifies BLOCK→ALLOW as a
false positive and ALLOW→BLOCK as a false negative. -/
def LearningMemory.record_human_override
    (m : MemoryState) (original_verdict override_verdict : Verdict)
    (reason : String) (request : Option FirewallRequest) : MemoryState :=
  if LEARNING_ENABLED = false then m
  else
    let record : OverrideRecord :=
      { original_verdict := original_verdict,
        override_verdict := override_verdict,
        reason := reason,
        ai_output_preview := request.map (fun r => String.mk (r.ai_output.data.take 200)) }
    let m1 := { m with
      human_overrides := m.human_overrides ++ [record],
      statistics := { m.statistics with total_overrides := m.statistics.total_overrides + 1 } }
    if original_verdict = Verdict.BLOCK ∧ override_verdict = Verdict.ALLOW then
      { m1 with
        false_positives := m1.false_positives ++ [record],
        statistics := { m1.statistics with
          false_positive_count := m1.statistics.false_positive_count + 1 } }
    else if original_verdict = Verdict.ALLOW ∧ override_verdict = Verdict.BLOCK then
      { m1 with
        false_negatives := m1.false_negatives ++ [record],
        statistics := { m1.statistics with
          false_negative_count := m1.statistics.false_negative_count + 1 } }
    else m1

/-- `LearningMemory.get_false_positive_rate`. -/
def LearningMemory.get_false_positive_rate (m : MemoryState) : ℚ :=
  if m.statistics.total_blocks = 0 then 0
  else (m.statistics.false_positive_count : ℚ) / (m.statistics.total_blocks : ℚ)

/-- `LearningMemory.get_false_negative_rate`: reads the `total_allows` key
with default 0, so it divides by a counter no operation ever writes. -/
def LearningMemory.get_false_negative_rate (m : MemoryState) : ℚ :=
  let total_allows := m.statistics.total_allows.getD 0
  if total_allows = 0 then 0
  else if total_allows > 0 then
    (m.statistics.false_negative_count : ℚ) / (total_allows : ℚ)
  else 0

/-- The dictionary returned by `LearningMemory.get_statistics`. -/
structure StatisticsView where
  total_blocks : Nat
  total_overrides : Nat
  false_positive_count : Nat
  false_negative_count : Nat
  false_positive_rate : ℚ
  false_negative_rate : ℚ
  recent_blocks : Nat
  recent_overrides : Nat
deriving DecidableEq, Repr

/-- `LearningMemory.get_statistics`: counters plus derived rates; the
`recent` fields are the lengths of the `[-10:]` slices. -/
def LearningMemory.get_statistics (m : MemoryState) : StatisticsView :=
  { total_blocks := m.statistics.total_blocks,
    total_overrides := m.statistics.total_overrides,
    false_positive_count := m.statistics.false_positive_count,
    false_negative_count := m.statistics.false_negative_count,
    false_positive_rate := LearningMemory.get_false_positive_rate m,
    false_negative_rate := LearningMemory.get_false_negative_rate m,
    recent_blocks := (m.blocked_decisions.reverse.take 10).length,
    recent_overrides := (m.human_overrides.reverse.take 10).length }

/-- One call against the LearningMemory public interface. -/
inductive MemOp where
  | blocked (request : FirewallRequest) (response : FirewallResponse)
  | override (original_verdict override_verdict : Verdict) (reason : String)
      (request : Option FirewallRequest)

def LearningMemory.applyOp (m : MemoryState) : MemOp → MemoryState
  | .blocked request response => LearningMemory.record_blocked_decision m request response
  | .override ov nv reason request => LearningMemory.record_human_override m ov nv reason request

/-- The memory state after a sequence of operations from a fresh store. -/
def LearningMemory.runOps (ops : List MemOp) : MemoryState :=
  ops.foldl LearningMemory.applyOp LearningMemory.initial

/-! ## FirewallInterceptor (`src/adf/firewall/interceptor.py`)

`check` is parameterized by the current policy mode (the process-wide
`PolicyManager` singleton) and by `ENTERPRISE_MODE`.  `checkCore` is the
response as finalized by the verdict engine (steps 1-8 of `check`);
`check` then records the side effects and applies the enterprise overlay,
in exactly the order of the source. -/

def FirewallInterceptor.checkCore (mode : PolicyMode) (request : FirewallRequest) :
    FirewallResponse :=
  let claims := ClaimParser.parse request.ai_output request.confidence
  let confidencePair := ConfidenceChecker.validate_confidence_alignment request.confidence claims
  let confidence_aligned := confidencePair.1
  let evidenceTriple := EvidenceChecker.check_evidence claims request.sources
  let evidence_passed := evidenceTriple.1
  let rulesTriple := RulesEngine.check_rules claims request.ai_output request.intended_action
  let rules_passed := rulesTriple.1
  let risk_score := RiskScorer.calculate_risk_score
    request.confidence request.intended_action claims evidence_passed
  let governancePair := PolicyManager.requires_mandatory_review mode request.intended_action
  let reviewPair := RulesEngine.requires_human_review_for_high_impact
    request.intended_action request.confidence evidence_passed
  let failed_checks : List String :=
    (if evidence_passed = false then ["evidence"] else [])
    ++ (if rules_passed = false then ["rules"] else [])
    ++ (if confidence_aligned = false ∧ evidence_passed = false then ["confidence_alignment"] else [])
    ++ (if reviewPair.1 then ["high_impact_review_required"] else [])
    ++ (if governancePair.1 then ["governance_mandatory_review"] else [])
  let verdictTuple := VerdictEngine.determine_verdict
    risk_score evidence_passed rules_passed confidence_aligned failed_checks
    request.intended_action request.confidence claims
    reviewPair.1 reviewPair.2 governancePair.1 governancePair.2
  let check_results : List CheckResult :=
    [⟨"confidence_alignment", confidence_aligned, confidencePair.2⟩,
     ⟨"evidence", evidence_passed, evidenceTriple.2.1⟩,
     ⟨"rules", rules_passed, rulesTriple.2.1⟩]
  { verdict := verdictTuple.1,
    reason := verdictTuple.2.1,
    risk_score := risk_score,
    details := VerdictEngine.build_details claims risk_score evidence_passed
      rules_passed confidence_aligned check_results request.sources,
    failed_checks := failed_checks,
    explanation := verdictTuple.2.2.1,
    confidence_alignment := confidence_aligned,
    applied_policies := verdictTuple.2.2.2.1,
    escalation_reason := verdictTuple.2.2.2.2 }

/-- What `check` hands to each side-effect component, and the response it
finally returns.  `auditResponse` is the response passed to
`AuditLogger.log_decision` (only in enterprise mode), `metricsVerdict` and
`metricsHallucination` what `MetricsCounter.record_request` receives, and
`learningRecord` the entry `LearningMemory.record_blocked_decision` stores
for BLOCK verdicts. -/
structure CheckOutcome where
  response : FirewallResponse
  auditResponse : Option FirewallResponse
  metricsVerdict : Verdict
  metricsHallucination : Bool
  learningRecord : Option BlockedRecord
deriving DecidableEq, Repr

/-- `FirewallInterceptor.check`: build the response, emit the side effects,
then apply the enterprise ALLOW→REQUIRE_HUMAN_REVIEW overlay for
`risk_score ≥ 0.7` — in the order of the source, where the overlay runs
after the side effects. -/
def FirewallInterceptor.check
    (mode : PolicyMode) (enterprise : Bool) (request : FirewallRequest) : CheckOutcome :=
  let response0 := FirewallInterceptor.checkCore mode request
  let auditResponse := if enterprise then some response0 else none
  let is_hallucination :=
    response0.verdict = Verdict.BLOCK ∧
    "evidence" ∈ response0.failed_checks ∧
    request.confidence > mkRat 7 10
  let learningRecord :=
    if response0.verdict = Verdict.BLOCK then
      some (LearningMemory.mkBlockedRecord request response0)
    else none
  let response :=
    if enterprise ∧ response0.risk_score ≥ mkRat 7 10 ∧ response0.verdict = Verdict.ALLOW then
      { response0 with
        verdict := Verdict.REQUIRE_HUMAN_REVIEW,
        reason := "Enterprise mode: High-risk decision requires human review",
        explanation := "Enterprise mode requires human review for high-risk decisions (risk score: "
          ++ toString response0.risk_score ++ "). Original verdict was ALLOW." }
    else response0
  { response := response,
    auditResponse := auditResponse,
    metricsVerdict := response0.verdict,
    metricsHallucination := is_hallucination,
    learningRecord := learningRecord }


/-! ## Ladder lemmas -/

theorem determine_verdict_governance
    (risk_score : ℚ) (ev ru al : Bool) (fc : List String) (act : String)
    (conf : ℚ) (cl : List Claim) (hi : Bool) (hir : String) (gov : Bool) (gr : String)
    (h : gov = true) :
    (VerdictEngine.determine_verdict risk_score ev ru al fc act conf cl hi hir gov gr).1
        = Verdict.REQUIRE_HUMAN_REVIEW ∧
    (VerdictEngine.determine_verdict risk_score ev ru al fc act conf cl hi hir gov gr).2.2.2.1
        = ["mandatory_governance_review"] := by
  simp [VerdictEngine.determine_verdict, h]

theorem determine_verdict_rules_failed
    (risk_score : ℚ) (ev ru al : Bool) (fc : List String) (act : String)
    (conf : ℚ) (cl : List Claim) (hi : Bool) (hir : String) (gov : Bool) (gr : String)
    (hg : gov = false) (hr : ru = false) :
    (VerdictEngine.determine_verdict risk_score ev ru al fc act conf cl hi hir gov gr).1
        = Verdict.BLOCK ∧
    (VerdictEngine.determine_verdict risk_score ev ru al fc act conf cl hi hir gov gr).2.2.2.1
        = ["safety_rules"] := by
  simp [VerdictEngine.determine_verdict, hg, hr]

set_option maxHeartbeats 1000000 in
theorem determine_verdict_allow_risk
    (risk_score : ℚ) (ev ru al : Bool) (fc : List String) (act : String)
    (conf : ℚ) (cl : List Claim) (hi : Bool) (hir : String) (gov : Bool) (gr : String)
    (h : (VerdictEngine.determine_verdict risk_score ev ru al fc act conf cl hi hir gov gr).1
        = Verdict.ALLOW) :
    risk_score < RISK_THRESHOLD_MEDIUM := by
  unfold VerdictEngine.determine_verdict at h
  split_ifs at h with h1 h2 h3 h4 h5 h6 h7 h8 h9 h10
  all_goals simp only [Prod.fst] at h
  all_goals exact lt_of_not_ge (by assumption)

set_option maxHeartbeats 1000000 in
theorem checkCore_allow_risk (mode : PolicyMode) (r : FirewallRequest)
    (h : (FirewallInterceptor.checkCore mode r).verdict = Verdict.ALLOW) :
    (FirewallInterceptor.checkCore mode r).risk_score < RISK_THRESHOLD_MEDIUM := by
  simp only [FirewallInterceptor.checkCore] at h ⊢
  exact determine_verdict_allow_risk _ _ _ _ _ _ _ _ _ _ _ _ h

set_option maxHeartbeats 1000000 in
theorem check_response_eq_core (mode : PolicyMode) (enterprise : Bool) (r : FirewallRequest) :
    (FirewallInterceptor.check mode enterprise r).response
        = FirewallInterceptor.checkCore mode r := by
  simp only [FirewallInterceptor.check]
  split_ifs with h
  · exfalso
    obtain ⟨-, h7, hA⟩ := h
    have hlt := checkCore_allow_risk mode r hA
    have hm : RISK_THRESHOLD_MEDIUM < mkRat 7 10 := by decide
    linarith
  · rfl

set_option maxHeartbeats 1000000 in
theorem checkCore_governance (mode : PolicyMode) (r : FirewallRequest)
    (h : (PolicyManager.requires_mandatory_review mode r.intended_action).1 = true) :
    (FirewallInterceptor.checkCore mode r).verdict = Verdict.REQUIRE_HUMAN_REVIEW ∧
    (FirewallInterceptor.checkCore mode r).applied_policies = ["mandatory_governance_review"] := by
  simp only [FirewallInterceptor.checkCore]
  exact determine_verdict_governance _ _ _ _ _ _ _ _ _ _ _ _ h

set_option maxHeartbeats 1000000 in
theorem checkCore_rules_failed (mode : PolicyMode) (r : FirewallRequest)
    (hg : (PolicyManager.requires_mandatory_review mode r.intended_action).1 = false)
    (hr : (RulesEngine.check_rules (ClaimParser.parse r.ai_output r.confidence)
        r.ai_output r.intended_action).1 = false) :
    (FirewallInterceptor.checkCore mode r).verdict = Verdict.BLOCK ∧
    (FirewallInterceptor.checkCore mode r).applied_policies = ["safety_rules"] := by
  simp only [FirewallInterceptor.checkCore]
  exact determine_verdict_rules_failed _ _ _ _ _ _ _ _ _ _ _ _ hg hr

/-! ## The claims -/

/-- C1. Governance supremacy: for every valid request, if the current
policy mode requires mandatory review of the intended action, `check`
returns REQUIRE_HUMAN_REVIEW with `mandatory_governance_review` among the
applied policies — regardless of confidence, evidence, risk score, or
failed safety rules. -/
theorem governance_supremacy
    (mode : PolicyMode) (enterprise : Bool) (r : FirewallRequest)
    (hv : ValidRequest r)
    (hgov : (PolicyManager.requires_mandatory_review mode r.intended_action).1 = true) :
    (FirewallInterceptor.check mode enterprise r).response.verdict
        = Verdict.REQUIRE_HUMAN_REVIEW ∧
    "mandatory_governance_review"
        ∈ (FirewallInterceptor.check mode enterprise r).response.applied_policies := by
  rw [check_response_eq_core]
  obtain ⟨h1, h2⟩ := checkCore_governance mode r hgov
  exact ⟨h1, by rw [h2]; simp⟩

abbrev requestTradeNoSources : FirewallRequest :=
  { ai_output := "hello there world", confidence := mkRat 5 10, intended_action := "trade", sources := [] }

/-- Witness for C1 at a concrete trade request under the default mode. -/
theorem governance_supremacy_witness :
    (FirewallInterceptor.check PolicyMode.GENERAL_AI false requestTradeNoSources).response.verdict
        = Verdict.REQUIRE_HUMAN_REVIEW ∧
    "mandatory_governance_review"
        ∈ (FirewallInterceptor.check PolicyMode.GENERAL_AI false requestTradeNoSources).response.applied_policies :=
  governance_supremacy PolicyMode.GENERAL_AI false requestTradeNoSources
    (by decide) (by decide)

/-- C2. Safety supremacy below governance: for every valid request whose
rule scan fails and for which governance mandatory review does not apply,
`check` returns BLOCK with `safety_rules` among the applied policies; the
enterprise overlay and every later signal leave this BLOCK unchanged. -/
theorem safety_block_supremacy
    (mode : PolicyMode) (enterprise : Bool) (r : FirewallRequest)
    (hv : ValidRequest r)
    (hgov : (PolicyManager.requires_mandatory_review mode r.intended_action).1 = false)
    (hrules : (RulesEngine.check_rules (ClaimParser.parse r.ai_output r.confidence)
        r.ai_output r.intended_action).1 = false) :
    (FirewallInterceptor.check mode enterprise r).response.verdict = Verdict.BLOCK ∧
    "safety_rules"
        ∈ (FirewallInterceptor.check mode enterprise r).response.applied_policies := by
  rw [check_response_eq_core]
  obtain ⟨h1, h2⟩ := checkCore_rules_failed mode r hgov hrules
  exact ⟨h1, by rw [h2]; simp⟩

abbrev requestEvalCall : FirewallRequest :=
  { ai_output := "eval (1)", confidence := mkRat 5 10, intended_action := "answer", sources := [] }

/-- Witness for C2 at a concrete request whose output matches the
`eval\s*\(` unsafe pattern. -/
theorem safety_block_supremacy_witness :
    (FirewallInterceptor.check PolicyMode.GENERAL_AI false requestEvalCall).response.verdict
        = Verdict.BLOCK ∧
    "safety_rules"
        ∈ (FirewallInterceptor.check PolicyMode.GENERAL_AI false requestEvalCall).response.applied_policies :=
  safety_block_supremacy PolicyMode.GENERAL_AI false requestEvalCall
    (by decide) (by decide) (by decide)

set_option maxHeartbeats 1000000 in
theorem determine_verdict_evidence_override
    (risk_score : ℚ) (fc : List String) (act : String) (conf : ℚ) (cl : List Claim)
    (hi : Bool) (hir gr : String)
    (hrisk : risk_score < RISK_THRESHOLD_MEDIUM) :
    (VerdictEngine.determine_verdict risk_score true true false fc act conf cl
        hi hir false gr).1 ≠ Verdict.BLOCK := by
  have hmh : RISK_THRESHOLD_MEDIUM < RISK_THRESHOLD_HIGH := by decide
  unfold VerdictEngine.determine_verdict
  split_ifs with h1 h2 h3 h4 h5 <;> simp_all <;> linarith

/-- C3. Evidence Override Rule: when the confidence-alignment check fails
but evidence passes and no higher-priority ladder rule fires (governance,
safety rules, risk-based review; the critical-risk block and evidence gate
cannot fire below medium risk with evidence present), `check` does not
BLOCK and `confidence_alignment` is not among the failed checks. -/
theorem evidence_override_rule
    (mode : PolicyMode) (enterprise : Bool) (r : FirewallRequest)
    (hv : ValidRequest r)
    (hgov : (PolicyManager.requires_mandatory_review mode r.intended_action).1 = false)
    (hrules : (RulesEngine.check_rules (ClaimParser.parse r.ai_output r.confidence)
        r.ai_output r.intended_action).1 = true)
    (hev : (EvidenceChecker.check_evidence (ClaimParser.parse r.ai_output r.confidence)
        r.sources).1 = true)
    (halign : (ConfidenceChecker.validate_confidence_alignment r.confidence
        (ClaimParser.parse r.ai_output r.confidence)).1 = false)
    (hrisk : RiskScorer.calculate_risk_score r.confidence r.intended_action
        (ClaimParser.parse r.ai_output r.confidence) true < RISK_THRESHOLD_MEDIUM) :
    (FirewallInterceptor.check mode enterprise r).response.verdict ≠ Verdict.BLOCK ∧
    "confidence_alignment" ∉ (FirewallInterceptor.check mode enterprise r).response.failed_checks := by
  rw [check_response_eq_core]
  simp only [FirewallInterceptor.checkCore]
  rw [hgov, hrules, hev, halign]
  constructor
  · exact determine_verdict_evidence_override _ _ _ _ _ _ _ _ hrisk
  · cases (RulesEngine.requires_human_review_for_high_impact
        r.intended_action r.confidence true).1 <;> simp

abbrev requestFactualWithSource : FirewallRequest :=
  { ai_output := "a b 1", confidence := mkRat 9 10, intended_action := "answer",
    sources := ["src"] }

theorem risk_requestFactualWithSource_lt :
    RiskScorer.calculate_risk_score requestFactualWithSource.confidence
      requestFactualWithSource.intended_action
      (ClaimParser.parse requestFactualWithSource.ai_output requestFactualWithSource.confidence)
      true < RISK_THRESHOLD_MEDIUM := by
  rw [show ClaimParser.parse requestFactualWithSource.ai_output requestFactualWithSource.confidence
      = [⟨"a b 1", true, mkRat 9 10⟩] from by decide]
  unfold RiskScorer.calculate_risk_score
  rw [show pyLower requestFactualWithSource.intended_action = "answer" from by decide]
  simp only [ACTION_IMPACT, Option.getD, ConfidenceChecker.calculate_uncertainty,
    RISK_THRESHOLD_MEDIUM, if_true, reduceIte, List.length_cons, List.length_nil]
  norm_num [Rat.mkRat_eq_div, min_def, max_def]

/-- Witness for C3 at a factual single-claim request with one source:
alignment fails, evidence passes, and the ladder falls through to ALLOW. -/
theorem evidence_override_rule_witness :
    (FirewallInterceptor.check PolicyMode.GENERAL_AI false requestFactualWithSource).response.verdict
        ≠ Verdict.BLOCK ∧
    "confidence_alignment"
        ∉ (FirewallInterceptor.check PolicyMode.GENERAL_AI false requestFactualWithSource).response.failed_checks :=
  evidence_override_rule PolicyMode.GENERAL_AI false requestFactualWithSource
    (by decide) (by decide) (by decide) (by decide) (by decide)
    risk_requestFactualWithSource_lt

theorem check_overlay_condition_false (mode : PolicyMode) (enterprise : Bool) (r : FirewallRequest) :
    ¬(enterprise = true ∧ (FirewallInterceptor.checkCore mode r).risk_score ≥ mkRat 7 10 ∧
      (FirewallInterceptor.checkCore mode r).verdict = Verdict.ALLOW) := by
  rintro ⟨-, h7, hA⟩
  have hlt := checkCore_allow_risk mode r hA
  have hm : RISK_THRESHOLD_MEDIUM < mkRat 7 10 := by decide
  linarith

/-- C4. Logical atomicity of side effects: the verdict recorded by each
emitted side effect — the audit-log entry, the metrics record, and the
learning-memory block record — equals the verdict of the response finally
returned; the enterprise ALLOW-to-REQUIRE_HUMAN_REVIEW overlay (which the
source applies after the side effects) never rewrites a verdict a side
effect has already recorded, because its condition is unsatisfiable. -/
theorem side_effect_verdict_atomicity
    (mode : PolicyMode) (enterprise : Bool) (r : FirewallRequest)
    (hv : ValidRequest r) :
    (∀ resp, (FirewallInterceptor.check mode enterprise r).auditResponse = some resp →
        resp.verdict = (FirewallInterceptor.check mode enterprise r).response.verdict) ∧
    (FirewallInterceptor.check mode enterprise r).metricsVerdict
        = (FirewallInterceptor.check mode enterprise r).response.verdict ∧
    (∀ rec, (FirewallInterceptor.check mode enterprise r).learningRecord = some rec →
        rec.verdict = (FirewallInterceptor.check mode enterprise r).response.verdict) := by
  have hov := check_overlay_condition_false mode enterprise r
  simp only [FirewallInterceptor.check, if_neg hov]
  refine ⟨?_, trivial, ?_⟩
  · intro resp h
    cases enterprise <;> simp_all
  · intro rec h
    by_cases hb : (FirewallInterceptor.checkCore mode r).verdict = Verdict.BLOCK
    · rw [if_pos hb] at h
      cases h
      rfl
    · rw [if_neg hb] at h
      cases h

/-- Witness for C4 at a concrete blocked request in enterprise mode. -/
theorem side_effect_verdict_atomicity_witness :
    (∀ resp, (FirewallInterceptor.check PolicyMode.GENERAL_AI true requestEvalCall).auditResponse = some resp →
        resp.verdict = (FirewallInterceptor.check PolicyMode.GENERAL_AI true requestEvalCall).response.verdict) ∧
    (FirewallInterceptor.check PolicyMode.GENERAL_AI true requestEvalCall).metricsVerdict
        = (FirewallInterceptor.check PolicyMode.GENERAL_AI true requestEvalCall).response.verdict ∧
    (∀ rec, (FirewallInterceptor.check PolicyMode.GENERAL_AI true requestEvalCall).learningRecord = some rec →
        rec.verdict = (FirewallInterceptor.check PolicyMode.GENERAL_AI true requestEvalCall).response.verdict) :=
  side_effect_verdict_atomicity PolicyMode.GENERAL_AI true requestEvalCall (by decide)

/-- C9. ALLOW implies sub-medium risk, and the enterprise overlay is dead
code: the engine only reaches an ALLOW verdict when the risk score is below
the 0.6 medium threshold, so the overlay condition (ALLOW with risk at
least 0.7) never holds and `check` returns exactly the response the verdict
engine finalized. -/
theorem allow_implies_low_risk_and_overlay_noop :
    (∀ (mode : PolicyMode) (r : FirewallRequest),
        (FirewallInterceptor.checkCore mode r).verdict = Verdict.ALLOW →
        (FirewallInterceptor.checkCore mode r).risk_score < RISK_THRESHOLD_MEDIUM) ∧
    (∀ (mode : PolicyMode) (enterprise : Bool) (r : FirewallRequest),
        (FirewallInterceptor.check mode enterprise r).response
            = FirewallInterceptor.checkCore mode r) :=
  ⟨checkCore_allow_risk, check_response_eq_core⟩

abbrev requestEmptyAnswer : FirewallRequest :=
  { ai_output := "", confidence := mkRat 1 2, intended_action := "answer", sources := [] }

theorem risk_requestEmptyAnswer :
    RiskScorer.calculate_risk_score requestEmptyAnswer.confidence
      requestEmptyAnswer.intended_action
      (ClaimParser.parse requestEmptyAnswer.ai_output requestEmptyAnswer.confidence)
      (EvidenceChecker.check_evidence
        (ClaimParser.parse requestEmptyAnswer.ai_output requestEmptyAnswer.confidence)
        requestEmptyAnswer.sources).1 = mkRat 1 10 := by
  rw [show ClaimParser.parse requestEmptyAnswer.ai_output requestEmptyAnswer.confidence
      = ([] : List Claim) from by decide]
  rw [show (EvidenceChecker.check_evidence ([] : List Claim) requestEmptyAnswer.sources).1
      = true from by decide]
  unfold RiskScorer.calculate_risk_score
  rw [show pyLower requestEmptyAnswer.intended_action = "answer" from by decide]
  simp only [ACTION_IMPACT, Option.getD, ConfidenceChecker.calculate_uncertainty,
    if_true, reduceIte, List.length_nil]
  norm_num [Rat.mkRat_eq_div, min_def, max_def]

set_option maxHeartbeats 1000000 in
theorem checkCore_requestEmptyAnswer_allow :
    (FirewallInterceptor.checkCore PolicyMode.GENERAL_AI requestEmptyAnswer).verdict
        = Verdict.ALLOW := by
  simp only [FirewallInterceptor.checkCore]
  rw [risk_requestEmptyAnswer]
  decide

/-- Witness for C9 at a concrete request the engine allows. -/
theorem allow_implies_low_risk_and_overlay_noop_witness :
    (FirewallInterceptor.checkCore PolicyMode.GENERAL_AI requestEmptyAnswer).risk_score
        < RISK_THRESHOLD_MEDIUM ∧
    (FirewallInterceptor.check PolicyMode.GENERAL_AI true requestEmptyAnswer).response
        = FirewallInterceptor.checkCore PolicyMode.GENERAL_AI requestEmptyAnswer :=
  ⟨allow_implies_low_risk_and_overlay_noop.1 PolicyMode.GENERAL_AI requestEmptyAnswer
      checkCore_requestEmptyAnswer_allow,
   allow_implies_low_risk_and_overlay_noop.2 PolicyMode.GENERAL_AI true requestEmptyAnswer⟩

set_option maxHeartbeats 1000000 in
theorem determine_verdict_policies_no_hi
    (risk_score : ℚ) (ev ru al : Bool) (fc : List String) (act : String)
    (conf : ℚ) (cl : List Claim) (hir gr : String)
    (hact : act ∉ (["trade", "execute_code"] : List String)) :
    "high_risk_block" ∉ (VerdictEngine.determine_verdict risk_score ev ru al fc act conf cl
        false hir false gr).2.2.2.1 ∧
    "high_impact_policy" ∉ (VerdictEngine.determine_verdict risk_score ev ru al fc act conf cl
        false hir false gr).2.2.2.1 := by
  unfold VerdictEngine.determine_verdict
  split_ifs <;> simp_all

set_option maxHeartbeats 1000000 in
/-- C8. Implicit: every policy mode mandatory-review set contains both
high-impact actions, so for valid trade or execute_code requests governance
fires first and `check` returns REQUIRE_HUMAN_REVIEW (never BLOCK); hence
the critical-risk block (priority 2) and the high-impact policy
(priority 6) branches are unreachable for valid requests: their tags never
appear in the applied policies. -/
theorem high_impact_governance_shadowing :
    (∀ mode : PolicyMode,
        "trade" ∈ PolicyManager.mandatory_review_actions mode ∧
        "execute_code" ∈ PolicyManager.mandatory_review_actions mode) ∧
    (∀ (mode : PolicyMode) (enterprise : Bool) (r : FirewallRequest), ValidRequest r →
      ((r.intended_action = "trade" ∨ r.intended_action = "execute_code") →
          (FirewallInterceptor.check mode enterprise r).response.verdict
              = Verdict.REQUIRE_HUMAN_REVIEW ∧
          (FirewallInterceptor.check mode enterprise r).response.verdict ≠ Verdict.BLOCK) ∧
      "high_risk_block" ∉ (FirewallInterceptor.check mode enterprise r).response.applied_policies ∧
      "high_impact_policy" ∉ (FirewallInterceptor.check mode enterprise r).response.applied_policies) := by
  constructor
  · intro mode; cases mode <;> exact ⟨by decide, by decide⟩
  · intro mode enterprise r hv
    obtain ⟨-, -, hmem⟩ := hv
    rw [check_response_eq_core]
    simp only [List.mem_cons, List.not_mem_nil, or_false] at hmem
    have main : ∀ ha : r.intended_action = "trade" ∨ r.intended_action = "execute_code",
        (FirewallInterceptor.checkCore mode r).verdict = Verdict.REQUIRE_HUMAN_REVIEW ∧
        (FirewallInterceptor.checkCore mode r).verdict ≠ Verdict.BLOCK ∧
        "high_risk_block" ∉ (FirewallInterceptor.checkCore mode r).applied_policies ∧
        "high_impact_policy" ∉ (FirewallInterceptor.checkCore mode r).applied_policies := by
      intro ha
      have hgov : (PolicyManager.requires_mandatory_review mode r.intended_action).1 = true := by
        rcases ha with h | h <;> rw [h] <;> cases mode <;> decide
      obtain ⟨h1, h2⟩ := checkCore_governance mode r hgov
      exact ⟨h1, by rw [h1]; decide, by rw [h2]; decide, by rw [h2]; decide⟩
    have other : ∀ ha : r.intended_action = "answer" ∨ r.intended_action = "email",
        "high_risk_block" ∉ (FirewallInterceptor.checkCore mode r).applied_policies ∧
        "high_impact_policy" ∉ (FirewallInterceptor.checkCore mode r).applied_policies := by
      intro ha
      have hgovF : (PolicyManager.requires_mandatory_review mode r.intended_action).1 = false := by
        rcases ha with h | h <;> rw [h] <;> cases mode <;> decide
      have hhiF : ∀ ev : Bool,
          (RulesEngine.requires_human_review_for_high_impact r.intended_action
            r.confidence ev).1 = false := by
        intro ev
        rcases ha with h | h <;> rw [h] <;>
          (unfold RulesEngine.requires_human_review_for_high_impact; rw [if_pos (by decide)])
      have hact : r.intended_action ∉ (["trade", "execute_code"] : List String) := by
        rcases ha with h | h <;> rw [h] <;> decide
      simp only [FirewallInterceptor.checkCore]
      rw [hgovF, hhiF]
      exact determine_verdict_policies_no_hi _ _ _ _ _ _ _ _ _ _ hact
    rcases hmem with ha | ha | ha | ha
    · exact ⟨fun hc => ⟨(main hc).1, (main hc).2.1⟩, (other (Or.inl ha)).1, (other (Or.inl ha)).2⟩
    · exact ⟨fun hc => ⟨(main hc).1, (main hc).2.1⟩, (other (Or.inr ha)).1, (other (Or.inr ha)).2⟩
    · exact ⟨fun hc => ⟨(main hc).1, (main hc).2.1⟩,
        (main (Or.inl ha)).2.2.1, (main (Or.inl ha)).2.2.2⟩
    · exact ⟨fun hc => ⟨(main hc).1, (main hc).2.1⟩,
        (main (Or.inr ha)).2.2.1, (main (Or.inr ha)).2.2.2⟩

/-- Witness for C8 at a concrete trade request under FINANCIAL_SERVICES. -/
theorem high_impact_governance_shadowing_witness :
    (FirewallInterceptor.check PolicyMode.FINANCIAL_SERVICES false requestTradeNoSources).response.verdict
        = Verdict.REQUIRE_HUMAN_REVIEW ∧
    "high_risk_block" ∉ (FirewallInterceptor.check PolicyMode.FINANCIAL_SERVICES false requestTradeNoSources).response.applied_policies ∧
    "high_impact_policy" ∉ (FirewallInterceptor.check PolicyMode.FINANCIAL_SERVICES false requestTradeNoSources).response.applied_policies :=
  have h := high_impact_governance_shadowing.2 PolicyMode.FINANCIAL_SERVICES false
    requestTradeNoSources (by decide)
  ⟨(h.1 (Or.inl rfl)).1, h.2.1, h.2.2⟩

/-- The set `F` of the spec: factual claims with confidence above 0.6. -/
def highConfidenceFactual (claims : List Claim) : List Claim :=
  claims.filter (fun c => c.is_factual && decide (c.confidence > mkRat 6 10))

/-- The surviving sources of the spec: sources with non-empty trimmed text. -/
def validSourceCount (sources : List String) : Nat :=
  (sources.filter (fun s => !(pyStrip s.data).isEmpty)).length

set_option maxHeartbeats 1000000 in
/-- C7. Evidence check characterization: `check_evidence` passes exactly
when the set F of factual claims with confidence above 0.6 is empty, or the
number of sources with non-empty trimmed text is at least
`max 1 (F.length / 3)`; whenever it fails, the returned failed-claims list
is exactly the texts of the claims in F. -/
theorem check_evidence_characterization (claims : List Claim) (sources : List String) :
    ((EvidenceChecker.check_evidence claims sources).1 = true ↔
      (highConfidenceFactual claims = [] ∨
       validSourceCount sources ≥ max 1 ((highConfidenceFactual claims).length / 3))) ∧
    ((EvidenceChecker.check_evidence claims sources).1 = false →
      (EvidenceChecker.check_evidence claims sources).2.2
        = (highConfidenceFactual claims).map Claim.text) := by
  unfold highConfidenceFactual validSourceCount
  by_cases h1 : claims.filter (fun c => c.is_factual && decide (c.confidence > mkRat 6 10)) = []
  · simp [EvidenceChecker.check_evidence, CONFIDENCE_THRESHOLD_EVIDENCE_REQUIRED, h1]
  · by_cases h2 : sources.length = 0
    · have hs : sources = [] := List.length_eq_zero.mp h2
      subst hs
      simp only [EvidenceChecker.check_evidence, CONFIDENCE_THRESHOLD_EVIDENCE_REQUIRED,
        if_neg h1, List.length_nil, if_true]
      constructor
      · simp only [Bool.false_eq_true, false_iff, not_or]
        push_neg
        refine ⟨h1, ?_⟩
        simp only [List.filter_nil, List.length_nil]
        omega
      · first
        | trivial
        | (intro _; rfl)
    · by_cases h3 : sources.filter (fun s => !(pyStrip s.data).isEmpty) = []
      · simp only [EvidenceChecker.check_evidence, CONFIDENCE_THRESHOLD_EVIDENCE_REQUIRED,
          if_neg h1, if_neg h2, if_pos h3]
        constructor
        · simp only [Bool.false_eq_true, false_iff]
          push_neg
          refine ⟨h1, ?_⟩
          rw [h3]
          simp only [List.length_nil]
          omega
        · first
          | trivial
          | (intro _; rfl)
      · by_cases h4 : (sources.filter (fun s => !(pyStrip s.data).isEmpty)).length
            < max 1 ((claims.filter (fun c => c.is_factual && decide (c.confidence > mkRat 6 10))).length / 3)
        · simp only [EvidenceChecker.check_evidence, CONFIDENCE_THRESHOLD_EVIDENCE_REQUIRED,
            if_neg h1, if_neg h2, if_neg h3, if_pos h4]
          constructor
          · simp only [Bool.false_eq_true, false_iff]
            push_neg
            exact ⟨h1, by omega⟩
          · first
            | trivial
            | (intro _; rfl)
        · simp only [EvidenceChecker.check_evidence, CONFIDENCE_THRESHOLD_EVIDENCE_REQUIRED,
            if_neg h1, if_neg h2, if_neg h3, if_neg h4]
          constructor
          · simp only [true_iff]
            right
            omega
          · intro h
            cases h

abbrev claimsSingleFactual : List Claim := [⟨"t c x", true, mkRat 9 10⟩]

/-- Witness for C7: one high-confidence factual claim and no sources fails
the check with exactly that claim text reported. -/
theorem check_evidence_characterization_witness :
    (EvidenceChecker.check_evidence claimsSingleFactual []).2.2
        = (highConfidenceFactual claimsSingleFactual).map Claim.text :=
  (check_evidence_characterization claimsSingleFactual []).2 (by decide)

/-- The risk formula as claim C6 states it: the clamp to [0, 1] of
(1 - c) x impact(action) x evidence_factor x min(1.3, 1 + 0.05 |claims|),
with the impact map applied to the action string exactly as written and
evidence_factor 1.5 exactly when evidence is absent and some factual claim
has confidence above 0.6. -/
def riskFormulaSpec (c : ℚ) (action : String) (claims : List Claim) (has_evidence : Bool) : ℚ :=
  let impact : ℚ :=
    if action = "answer" then mkRat 2 10
    else if action = "email" then mkRat 5 10
    else if action = "trade" then mkRat 9 10
    else if action = "execute_code" then mkRat 95 100
    else mkRat 5 10
  let evidence_factor : ℚ :=
    if has_evidence = false ∧
        claims.any (fun cl => cl.is_factual && decide (cl.confidence > mkRat 6 10)) then
      mkRat 3 2
    else 1
  min 1 (max 0 ((1 - c) * impact * evidence_factor
    * min (mkRat 13 10) (1 + (claims.length : ℚ) * mkRat 5 100)))

theorem calculate_risk_score_eq_formula
    (c : ℚ) (action : String) (claims : List Claim) (ev : Bool) :
    RiskScorer.calculate_risk_score c action claims ev
        = riskFormulaSpec c (pyLower action) claims ev := by
  unfold RiskScorer.calculate_risk_score riskFormulaSpec ConfidenceChecker.calculate_uncertainty
  have himp : (ACTION_IMPACT (pyLower action)).getD DEFAULT_ACTION_IMPACT =
      (if pyLower action = "answer" then mkRat 2 10
       else if pyLower action = "email" then mkRat 5 10
       else if pyLower action = "trade" then mkRat 9 10
       else if pyLower action = "execute_code" then mkRat 95 100
       else mkRat 5 10) := by
    unfold ACTION_IMPACT DEFAULT_ACTION_IMPACT
    split_ifs <;> rfl
  have key : ((claims.filter (fun cl => cl.is_factual)).filter
        (fun cl => decide (cl.confidence > mkRat 6 10)) ≠ []) ↔
      (claims.any (fun cl => cl.is_factual && decide (cl.confidence > mkRat 6 10)) = true) := by
    simp [List.filter_filter, Ne, List.filter_eq_nil_iff, List.any_eq_true]
    tauto
  have hef : (if ev = false then
        (if claims.filter (fun cl => cl.is_factual) ≠ [] then
          (if (claims.filter (fun cl => cl.is_factual)).filter
              (fun cl => decide (cl.confidence > mkRat 6 10)) ≠ [] then (mkRat 3 2) else 1)
         else 1)
      else (1 : ℚ)) =
      (if ev = false ∧
          claims.any (fun cl => cl.is_factual && decide (cl.confidence > mkRat 6 10)) then
        mkRat 3 2
      else 1) := by
    by_cases hev : ev = false
    · by_cases hhigh : (claims.filter (fun cl => cl.is_factual)).filter
          (fun cl => decide (cl.confidence > mkRat 6 10)) = []
      · have hany : ¬ (claims.any (fun cl => cl.is_factual && decide (cl.confidence > mkRat 6 10)) = true) :=
          fun h => (key.mpr h) hhigh
        rw [if_pos hev,
          if_neg (show ¬(ev = false ∧
            (claims.any fun cl => cl.is_factual && decide (cl.confidence > mkRat 6 10)) = true)
            from fun hc => hany hc.2)]
        by_cases hfac : claims.filter (fun cl => cl.is_factual) = []
        · rw [if_neg (show ¬(claims.filter (fun cl => cl.is_factual) ≠ [])
            from fun hne => hne hfac)]
        · rw [if_pos (show claims.filter (fun cl => cl.is_factual) ≠ [] from hfac),
            if_neg (show ¬((claims.filter (fun cl => cl.is_factual)).filter
              (fun cl => decide (cl.confidence > mkRat 6 10)) ≠ [])
              from fun hne => hne hhigh)]
      · have hfac : claims.filter (fun cl => cl.is_factual) ≠ [] := by
          intro h
          rw [h] at hhigh
          exact hhigh rfl
        rw [if_pos hev, if_pos hfac, if_pos hhigh,
          if_pos (show ev = false ∧
            (claims.any fun cl => cl.is_factual && decide (cl.confidence > mkRat 6 10)) = true
            from ⟨hev, key.mp hhigh⟩)]
    · rw [if_neg hev,
        if_neg (show ¬(ev = false ∧
          (claims.any fun cl => cl.is_factual && decide (cl.confidence > mkRat 6 10)) = true)
          from fun hc => hev hc.1)]
  rw [himp]
  rw [hef]
  rw [min_comm (mkRat 13 10) _]

theorem calculate_risk_score_bounds
    (c : ℚ) (action : String) (claims : List Claim) (ev : Bool) :
    0 ≤ RiskScorer.calculate_risk_score c action claims ev ∧
    RiskScorer.calculate_risk_score c action claims ev ≤ 1 := by
  unfold RiskScorer.calculate_risk_score ConfidenceChecker.calculate_uncertainty
  constructor
  · exact le_min (by norm_num) (le_max_left 0 _)
  · exact min_le_left _ _

theorem check_risk_score_bounds (mode : PolicyMode) (enterprise : Bool) (r : FirewallRequest) :
    0 ≤ (FirewallInterceptor.check mode enterprise r).response.risk_score ∧
    (FirewallInterceptor.check mode enterprise r).response.risk_score ≤ 1 := by
  rw [check_response_eq_core]
  simp only [FirewallInterceptor.checkCore]
  exact calculate_risk_score_bounds _ _ _ _

/-- C6 counterexample: at confidence 0, action string "ANSWER", no claims
and evidence present, the code computes impact from the lower-cased action
(0.2) while the formula as claimed maps the unknown string "ANSWER" to the
0.5 default, so the claimed equality fails. -/
theorem risk_score_formula_counterexample :
    RiskScorer.calculate_risk_score 0 "ANSWER" [] true
        ≠ riskFormulaSpec 0 "ANSWER" [] true := by
  have h1 : RiskScorer.calculate_risk_score 0 "ANSWER" [] true = mkRat 2 10 := by
    unfold RiskScorer.calculate_risk_score ConfidenceChecker.calculate_uncertainty
    rw [show pyLower "ANSWER" = "answer" from by decide]
    simp only [ACTION_IMPACT, Option.getD, if_true, reduceIte, List.length_nil]
    norm_num [Rat.mkRat_eq_div, min_def, max_def]
  have h2 : riskFormulaSpec 0 "ANSWER" [] true = mkRat 5 10 := by
    unfold riskFormulaSpec
    rw [if_neg (show ¬("ANSWER" = "answer") from by decide),
        if_neg (show ¬("ANSWER" = "email") from by decide),
        if_neg (show ¬("ANSWER" = "trade") from by decide),
        if_neg (show ¬("ANSWER" = "execute_code") from by decide),
        if_neg (show ¬(true = false ∧
          (List.any ([] : List Claim)
            fun cl => cl.is_factual && decide (cl.confidence > mkRat 6 10)) = true)
          from by decide)]
    norm_num [Rat.mkRat_eq_div, min_def, max_def]
  rw [h1, h2]
  decide

/-- C6 amended: the risk score equals the claimed clamped product formula
with the impact map applied to the lower-cased action (as the code does),
and every risk score — including the one in every response — lies in
[0, 1]. -/
theorem risk_score_formula_lowercased :
    (∀ (c : ℚ) (action : String) (claims : List Claim) (ev : Bool),
        RiskScorer.calculate_risk_score c action claims ev
            = riskFormulaSpec c (pyLower action) claims ev ∧
        0 ≤ RiskScorer.calculate_risk_score c action claims ev ∧
        RiskScorer.calculate_risk_score c action claims ev ≤ 1) ∧
    (∀ (mode : PolicyMode) (enterprise : Bool) (r : FirewallRequest),
        0 ≤ (FirewallInterceptor.check mode enterprise r).response.risk_score ∧
        (FirewallInterceptor.check mode enterprise r).response.risk_score ≤ 1) :=
  ⟨fun c action claims ev =>
    ⟨calculate_risk_score_eq_formula c action claims ev,
     calculate_risk_score_bounds c action claims ev⟩,
   check_risk_score_bounds⟩

theorem applyOp_total_allows (m : MemoryState) (op : MemOp) :
    (LearningMemory.applyOp m op).statistics.total_allows = m.statistics.total_allows := by
  cases op with
  | blocked request response =>
    simp [LearningMemory.applyOp, LearningMemory.record_blocked_decision, LEARNING_ENABLED]
  | override ov nv reason request =>
    simp only [LearningMemory.applyOp, LearningMemory.record_human_override, LEARNING_ENABLED]
    split_ifs <;> rfl

theorem runOps_total_allows (ops : List MemOp) :
    (LearningMemory.runOps ops).statistics.total_allows = none := by
  have inv : ∀ (l : List MemOp) (m : MemoryState),
      (l.foldl LearningMemory.applyOp m).statistics.total_allows
        = m.statistics.total_allows := by
    intro l
    induction l with
    | nil => intro m; rfl
    | cons op rest ih =>
      intro m
      rw [List.foldl_cons, ih, applyOp_total_allows]
  exact inv ops LearningMemory.initial

/-- C10. Implicit: no LearningMemory operation ever writes a `total_allows`
key — neither the fresh document nor `record_blocked_decision` nor
`record_human_override` — so `get_false_negative_rate`, which divides by
`statistics.get("total_allows", 0)`, returns 0 in every reachable state
(even though states with positive false-negative counts are reachable), and
the `false_negative_rate` reported by `get_statistics` is identically 0. -/
theorem false_negative_rate_always_zero :
    (∀ ops : List MemOp,
      (LearningMemory.runOps ops).statistics.total_allows = none ∧
      LearningMemory.get_false_negative_rate (LearningMemory.runOps ops) = 0 ∧
      (LearningMemory.get_statistics (LearningMemory.runOps ops)).false_negative_rate = 0) ∧
    (∃ ops : List MemOp,
      0 < (LearningMemory.runOps ops).statistics.false_negative_count) := by
  constructor
  · intro ops
    have h := runOps_total_allows ops
    refine ⟨h, ?_, ?_⟩
    · simp [LearningMemory.get_false_negative_rate, h]
    · simp [LearningMemory.get_statistics, LearningMemory.get_false_negative_rate, h]
  · exact ⟨[MemOp.override Verdict.ALLOW Verdict.BLOCK "wrong" none], by decide⟩

abbrev requestScenarioS4 : FirewallRequest :=
  { ai_output := "Apple was founded in 1976 and makes the iPhone",
    confidence := mkRat 9 10, intended_action := "answer", sources := [] }

abbrev claimS4 : Claim :=
  ⟨"Apple was founded in 1976 and makes the iPhone", true, mkRat 9 10⟩

set_option maxRecDepth 4000 in
theorem risk_requestScenarioS4 :
    RiskScorer.calculate_risk_score requestScenarioS4.confidence
      requestScenarioS4.intended_action
      (ClaimParser.parse requestScenarioS4.ai_output requestScenarioS4.confidence)
      (EvidenceChecker.check_evidence
        (ClaimParser.parse requestScenarioS4.ai_output requestScenarioS4.confidence)
        requestScenarioS4.sources).1 = mkRat 63 2000 := by
  rw [show ClaimParser.parse requestScenarioS4.ai_output requestScenarioS4.confidence
      = [claimS4] from by decide]
  rw [show (EvidenceChecker.check_evidence [claimS4] requestScenarioS4.sources).1 = false
      from by decide]
  unfold RiskScorer.calculate_risk_score
  rw [show pyLower requestScenarioS4.intended_action = "answer" from by decide]
  simp only [ACTION_IMPACT, Option.getD, ConfidenceChecker.calculate_uncertainty,
    if_true, reduceIte, List.length_cons, List.length_nil]
  rw [if_pos (show List.filter (fun c => c.is_factual) [claimS4] ≠ [] from by decide)]
  rw [if_pos (show List.filter (fun c => decide (c.confidence > mkRat 6 10))
      (List.filter (fun c => c.is_factual) [claimS4]) ≠ [] from by decide)]
  norm_num [Rat.mkRat_eq_div, min_def, max_def]

set_option maxRecDepth 4000 in
set_option maxHeartbeats 2000000 in
/-- C5 (code behavior at the scenario S4 input): for the literal request
with output "Apple was founded in 1976 and makes the iPhone", confidence
0.9, action answer and no sources under GENERAL_AI, the computed risk is
0.0315, far below the 0.6 medium threshold, so the evidence gate returns
REQUIRE_EVIDENCE — not the BLOCK the spec scenario S4 and the repository
test `test_example.py` assert.  `evidence` is among the failed checks as
claimed. -/
theorem scenario_s4_code_behavior :
    (FirewallInterceptor.check PolicyMode.GENERAL_AI false requestScenarioS4).response.verdict
        = Verdict.REQUIRE_EVIDENCE ∧
    (FirewallInterceptor.check PolicyMode.GENERAL_AI false requestScenarioS4).response.verdict
        ≠ Verdict.BLOCK ∧
    "evidence" ∈ (FirewallInterceptor.check PolicyMode.GENERAL_AI false requestScenarioS4).response.failed_checks := by
  rw [check_response_eq_core]
  simp only [FirewallInterceptor.checkCore]
  rw [risk_requestScenarioS4]
  exact ⟨by decide, by decide, by decide⟩
